import Mathlib

/-!
Verification of the multiple-choice question answering orchestrator
(router / strategy dispatch, math self-correction loop, retrieval fusion,
checkpointed execution driver).

Each definition below is a shallow embedding of the corresponding Python
function, keeping the source file and function names where Lean permits.
External capabilities (the HTTP generation / embedding clients, the vector
store, the sandboxed `exec`) are modelled as explicit inputs to the
functions that call them; machine floats are modelled as exact rationals.
-/

namespace VnptAgent

/-! ### Character and string primitives (Python semantics, ASCII ranges) -/

/-- Python `[A-Z]` character class. -/
def isUpperAZ (c : Char) : Bool := 65 ≤ c.toNat && c.toNat ≤ 90

/-- Python `[a-z]` character class. -/
def isLowerAZ (c : Char) : Bool := 97 ≤ c.toNat && c.toNat ≤ 122

/-- Python `[A-J]` character class (toxic choice enumeration letters). -/
def isLetterAJ (c : Char) : Bool := 65 ≤ c.toNat && c.toNat ≤ 74

/-- ASCII whitespace stripped by Python `str.strip()` and matched by `\s`. -/
def isPySpace (c : Char) : Bool :=
  c = ' ' || c = '\t' || c = '\n' || c = '\x0b' || c = '\x0c' || c = '\r'

/-- Python `\w` word character (ASCII fragment). -/
def isWordChar (c : Char) : Bool :=
  isUpperAZ c || isLowerAZ c || (48 ≤ c.toNat && c.toNat ≤ 57) || c = '_'

/-- Python `str.upper` on one character (ASCII fragment). -/
def pyToUpper (c : Char) : Char :=
  if isLowerAZ c then Char.ofNat (c.toNat - 32) else c

/-- Python `str.lower` on one character (ASCII fragment). -/
def pyToLower (c : Char) : Char :=
  if isUpperAZ c then Char.ofNat (c.toNat + 32) else c

/-- Drop trailing Python whitespace (the right half of `str.strip()`). -/
def dropTrailingWs : List Char → List Char
  | [] => []
  | c :: rest =>
    let r := dropTrailingWs rest
    if r.isEmpty && isPySpace c then [] else c :: r

/-- Python `str.strip()` over the character list. -/
def stripChars (l : List Char) : List Char :=
  dropTrailingWs (l.dropWhile isPySpace)

/-- Python `str.strip()`. -/
def pyStrip (s : String) : String := ⟨stripChars s.data⟩

/-- Python `str.upper()`. -/
def pyUpper (s : String) : String := ⟨s.data.map pyToUpper⟩

/-- Python `str.lower()`. -/
def pyLower (s : String) : String := ⟨s.data.map pyToLower⟩

/-- Python slicing `s[:n]` (by code point, as in Python). -/
def pyTake (n : Nat) (s : String) : String := ⟨s.data.take n⟩

/-- Does `l` start with `n`?  (Used to model substring search.) -/
def startsWithSeq : List Char → List Char → Bool
  | [], _ => true
  | _ :: _, [] => false
  | a :: as, b :: bs => a = b && startsWithSeq as bs

/-- Python `needle in haystack` over character lists. -/
def containsSeq (needle : List Char) : List Char → Bool
  | [] => needle.isEmpty
  | c :: rest => startsWithSeq needle (c :: rest) || containsSeq needle rest

/-- Python `needle in haystack` on strings. -/
def pyContains (haystack needle : String) : Bool :=
  containsSeq needle.data haystack.data

/-! ### Checkpoint-log consolidation (`predict.py`, `consolidate_log_to_csv`) -/

/-- A checkpoint-log line that parsed as JSON; `none` models an absent key
(Python `dict.get` returning `None`). Fields other than `qid` and `answer`
are ignored by consolidation. -/
structure RawRecord where
  qid : Option String
  answer : Option String
deriving DecidableEq, Repr

/-- One physical line of the checkpoint log: either it parses as JSON or the
`json.loads` call raises and the line is skipped. -/
inductive LogLine where
  | ok (r : RawRecord)
  | malformed (raw : String)
deriving DecidableEq, Repr

/-- One row of the produced submission table. -/
structure SubmissionRow where
  qid : Option String
  answer : String
deriving DecidableEq, Repr

/-- `{'qid': record.get('qid'), 'answer': record.get('answer', 'A')}`. -/
def rowOfRecord (r : RawRecord) : SubmissionRow :=
  ⟨r.qid, r.answer.getD "A"⟩

/-- The `results` list built by the read loop: every parseable line
contributes a row, malformed lines are skipped. -/
def parsedRows (log : List LogLine) : List SubmissionRow :=
  log.filterMap fun l =>
    match l with
    | .ok r => some (rowOfRecord r)
    | .malformed _ => none

/-- Python string `<=`: lexicographic by code point. -/
def lexLeChars : List Char → List Char → Bool
  | [], _ => true
  | _ :: _, [] => false
  | a :: as, b :: bs =>
    if a.toNat < b.toNat then true
    else if b.toNat < a.toNat then false
    else lexLeChars as bs

/-- Ordering on the `qid` column used by `df.sort_values(by='qid')`
(Python string comparison; `none` ordered first, a case the claims never
exercise since pandas would reject `None`-mixed keys). -/
def qidLe : Option String → Option String → Prop
  | none, _ => True
  | some _, none => False
  | some x, some y => lexLeChars x.data y.data = true

instance : DecidableRel qidLe := fun a b =>
  match a, b with
  | none, _ => isTrue trivial
  | some _, none => isFalse (fun h => h)
  | some x, some y => inferInstanceAs (Decidable (lexLeChars x.data y.data = true))

/-- Row comparison for `sort_values(by='qid')`. -/
def rowLe (a b : SubmissionRow) : Prop := qidLe a.qid b.qid

instance : DecidableRel rowLe := fun a b =>
  inferInstanceAs (Decidable (qidLe a.qid b.qid))

instance : IsTotal SubmissionRow rowLe where
  total a b := by
    have key : ∀ as bs : List Char, lexLeChars as bs = true ∨ lexLeChars bs as = true := by
      intro as
      induction as with
      | nil => intro bs; left; cases bs <;> rfl
      | cons a as ih =>
        intro bs
        cases bs with
        | nil => right; rfl
        | cons b bt =>
          by_cases h1 : a.toNat < b.toNat
          · left; simp [lexLeChars, h1]
          · by_cases h2 : b.toNat < a.toNat
            · right; simp [lexLeChars, h2]
            · rcases ih bt with h | h
              · left; simp [lexLeChars, h1, h2, h]
              · right; simp [lexLeChars, h1, h2, h]
    unfold rowLe qidLe
    cases a.qid with
    | none => exact Or.inl trivial
    | some x =>
      cases b.qid with
      | none => exact Or.inr trivial
      | some y => exact key x.data y.data

instance : IsTrans SubmissionRow rowLe where
  trans a b c hab hbc := by
    have key : ∀ as bs cs : List Char, lexLeChars as bs = true →
        lexLeChars bs cs = true → lexLeChars as cs = true := by
      intro as
      induction as with
      | nil => intro bs cs _ _; cases cs <;> rfl
      | cons a as ih =>
        intro bs cs hab hbc
        cases bs with
        | nil => exact absurd hab (by simp [lexLeChars])
        | cons b bt =>
          cases cs with
          | nil => exact absurd hbc (by simp [lexLeChars])
          | cons c ct =>
            simp [lexLeChars] at hab hbc ⊢
            rcases hab with h | ⟨h, ht⟩
            · rcases hbc with h2 | ⟨h2, ht2⟩
              · exact Or.inl (by omega)
              · exact Or.inl (by omega)
            · rcases hbc with h2 | ⟨h2, ht2⟩
              · exact Or.inl (by omega)
              · exact Or.inr ⟨le_trans h h2, ih bt ct ht ht2⟩
    unfold rowLe qidLe at *
    cases ha : a.qid with
    | none => trivial
    | some x =>
      cases hb : b.qid with
      | none => simp only [ha, hb] at hab
      | some y =>
        cases hc : c.qid with
        | none => simp only [hb, hc] at hbc
        | some z =>
          simp only [ha, hb, hc] at hab hbc ⊢
          exact key x.data y.data z.data hab hbc

/-- `consolidate_log_to_csv`: parse every line, keep one row per parseable
record, sort the table by `qid`. -/
def consolidate_log_to_csv (log : List LogLine) : List SubmissionRow :=
  List.insertionSort rowLe (parsedRows log)

/-! ### Retrieval fusion (`src/agent/modules/rag/solver.py`) -/

/-- Vector-store payload fields read by `format_context`.  `none` models an
absent key. -/
structure Payload where
  content : String
  domain : Option String
  doc_title : Option String
  chapter : Option String
  article_num : Option String
deriving DecidableEq, Repr

/-- A `ScoredPoint` as consumed by the fusion and context steps (the
similarity score itself is no longer read after retrieval). -/
structure RPoint where
  id : Nat
  payload : Payload
deriving DecidableEq, Repr

/-- `TOP_K_PER_QUERY` -/
def TOP_K_PER_QUERY : Nat := 10
/-- `FINAL_TOP_K` -/
def FINAL_TOP_K : Nat := 5
/-- `MIN_SCORE_THRESHOLD` (0.3, as an exact rational) -/
def MIN_SCORE_THRESHOLD : ℚ := 3 / 10
/-- RRF smoothing constant (default argument `k = 60`). -/
def RRF_K : Nat := 60

/-- Append a point to the ranking list of its source query, preserving the
first-seen order of queries (Python `defaultdict(list)` insertion order). -/
def addRanking : List (String × List RPoint) → String → RPoint →
    List (String × List RPoint)
  | [], q, p => [(q, [p])]
  | (q0, ps) :: rest, q, p =>
    if q0 = q then (q0, ps ++ [p]) :: rest else (q0, ps) :: addRanking rest q p

/-- `query_rankings`: group the tagged results by source query. -/
def query_rankings (results : List (RPoint × String)) :
    List (String × List RPoint) :=
  results.foldl (fun m pr => addRanking m pr.2 pr.1) []

/-- The individual RRF contributions `1 / (k + rank + 1)` produced by the
nested `for query / for rank, point` loops, in iteration order. -/
def rrfContribs (results : List (RPoint × String)) (k : Nat) :
    List (RPoint × ℚ) :=
  (query_rankings results).flatMap fun qr =>
    qr.2.enum.map fun rp => (rp.2, 1 / ((k : ℚ) + (rp.1 : ℚ) + 1))

/-- One `doc_scores` entry: the last point seen for this id and the
accumulated fusion score. -/
structure DocEntry where
  docId : Nat
  point : RPoint
  rrf_score : ℚ
deriving DecidableEq, Repr

/-- Add one contribution into the accumulator
(`doc_scores[doc_id]['rrf_score'] += rrf_score`, with dict insertion order
preserved). -/
def bumpEntry : List DocEntry → RPoint → ℚ → List DocEntry
  | [], p, s => [⟨p.id, p, s⟩]
  | e :: rest, p, s =>
    if e.docId = p.id then ⟨e.docId, p, e.rrf_score + s⟩ :: rest
    else e :: bumpEntry rest p s

/-- The fully accumulated `doc_scores` table. -/
def doc_scores (results : List (RPoint × String)) (k : Nat) : List DocEntry :=
  (rrfContribs results k).foldl (fun acc c => bumpEntry acc c.1 c.2) []

/-- Descending-score comparison used by
`sorted(..., key=lambda x: x['rrf_score'], reverse=True)`. -/
def scoreGe (a b : DocEntry) : Prop := b.rrf_score ≤ a.rrf_score

instance : DecidableRel scoreGe := fun a b =>
  inferInstanceAs (Decidable (b.rrf_score ≤ a.rrf_score))

instance : IsTotal DocEntry scoreGe where
  total a b := le_total b.rrf_score a.rrf_score

instance : IsTrans DocEntry scoreGe where
  trans _ _ _ hab hbc := le_trans hbc hab

/-- `ranked_docs`: the score table sorted by fusion score descending
(stable, as Python `sorted`). -/
def ranked_docs (results : List (RPoint × String)) (k : Nat) : List DocEntry :=
  List.insertionSort scoreGe (doc_scores results k)

/-- `reciprocal_rank_fusion`: fused candidate list, best first. -/
def reciprocal_rank_fusion (results : List (RPoint × String)) (k : Nat) :
    List RPoint :=
  (ranked_docs results k).map DocEntry.point

/-- Score a document id receives in `doc_scores` (0 if absent). -/
def fusedScore : List DocEntry → Nat → ℚ
  | [], _ => 0
  | e :: rest, d => if e.docId = d then e.rrf_score else fusedScore rest d

/-- Citation header built by `format_context` for one payload. -/
def citationHeader (p : Payload) : String :=
  if p.domain = some "legal" then
    let parts := ([] : List String)
    let parts := match p.doc_title with | some t => parts ++ [t] | none => parts
    let parts := match p.chapter with | some c => parts ++ [c] | none => parts
    let parts := match p.article_num with | some a => parts ++ [a] | none => parts
    "[📜 " ++ String.intercalate " - " parts ++ "]"
  else
    "[ " ++ (p.doc_title.getD "Tài liệu") ++ "]"

/-- Loop body state of `format_context`: remaining points, seen content
fingerprints (first 200 characters, modelling the Python `hash`), collected
blocks, running length. -/
def formatContextGo (maxLen : Nat) :
    List RPoint → List String → List String → Nat → List String
  | [], _, contexts, _ => contexts
  | point :: rest, seen, contexts, total =>
    let content := pyStrip point.payload.content
    let fingerprint := pyTake 200 content
    if fingerprint ∈ seen then
      formatContextGo maxLen rest seen contexts total
    else
      let seen := fingerprint :: seen
      let header := citationHeader point.payload
      if total + content.length > maxLen ∧ maxLen - total < 200 then
        contexts
      else
        let content :=
          if total + content.length > maxLen then
            pyTake (maxLen - total) content ++ "..."
          else content
        let formatted := header ++ "\n" ++ content
        let contexts := contexts ++ [formatted]
        let total := total + formatted.length
        if total ≥ maxLen then contexts
        else formatContextGo maxLen rest seen contexts total

/-- `format_context` with `max_context_length = 6000`. -/
def format_context (points : List RPoint) (maxLen : Nat) : String :=
  String.intercalate "\n\n---\n\n" (formatContextGo maxLen points [] [] 0)

/-- `advanced_rag_search`, parameterised by the tagged retrieval results
that `search_multi_query` obtained from the external embedding capability
and vector store (already threshold-filtered; an unreachable store, a failed
embedding, or nothing clearing `MIN_SCORE_THRESHOLD` all yield `[]`). -/
def advanced_rag_search (all_results : List (RPoint × String)) : String :=
  if all_results.isEmpty then ""
  else
    format_context ((reciprocal_rank_fusion all_results RRF_K).take FINAL_TOP_K)
      6000

/-! ### Agent state (`src/agent/state.py`) -/

/-- `AgentState` (the `TypedDict` carried through the graph). -/
structure AgentState where
  question : String
  qid : String
  choices : List String
  category : String
  context : String
  answer : String
  reasoning : String
deriving DecidableEq, Repr

/-- The initial state built by `predict.py` for one work item. -/
def initialState (qid question : String) (choices : List String) : AgentState :=
  ⟨question, qid, choices, "", "", "", ""⟩

/-! ### Router (`src/agent/router.py`) -/

/-- Outcome of parsing the classifier response
(`re.search` for a JSON object followed by `json.loads`):
either a flat string-valued object, or the raw text when no JSON parses.
A JSON `null` value behaves like an absent key for `toxic_detected`
(`dict.get` yields `None`, which is falsy), so `null` fields are omitted. -/
inductive ClassifierParse where
  | ok (fields : List (String × String))
  | fail (raw : String)
deriving DecidableEq, Repr

/-- `re.match(r'([A-Z])', toxic_answer)`: the single-letter extraction the
router applies to `toxic_detected` after `strip().upper()`. -/
def routerToxicLetter (toxic_detected : String) : Option Char :=
  match (pyUpper (pyStrip toxic_detected)).data with
  | [] => none
  | c :: _ => if isUpperAZ c then some c else none

/-- Classification + short-circuit step shared by both parse branches of
`router_node`: set `category`, and set `answer`/`reasoning` directly when
the classifier found a toxic letter. -/
def applyClassification (st : AgentState) (q_type : String)
    (toxic_detected : Option String) : AgentState :=
  let st := { st with category := pyLower q_type }
  match toxic_detected with
  | some td =>
    if q_type = "TOXIC" ∧ td ≠ "" then
      match routerToxicLetter td with
      | some c =>
        { st with answer := String.mk [c],
                  reasoning := "Toxic detected by router: " ++ String.mk [c] }
      | none => st
    else st
  | none => st

/-- `router_node`, parameterised by the parsed classifier response. -/
def router_node (st : AgentState) (resp : ClassifierParse) : AgentState :=
  match resp with
  | .ok fields =>
    let q_type := pyUpper ((fields.lookup "type").getD "RAG")
    applyClassification st q_type (fields.lookup "toxic_detected")
  | .fail raw =>
    let response_upper := pyUpper (pyStrip raw)
    let q_type :=
      if pyContains response_upper "TOXIC" then "TOXIC"
      else if pyContains response_upper "MATH" then "MATH"
      else if pyContains response_upper "READING" then "READING"
      else "RAG"
    applyClassification st q_type none

/-! ### Graph dispatch (`src/agent/graph.py`) -/

/-- The four solver nodes of the compiled graph. -/
inductive Solver where
  | mathSolver
  | ragSolver
  | readingSolver
  | toxicChecker
deriving DecidableEq, Repr

/-- The conditional-edge map added by `build_graph`: a category outside the
four keys has no destination, and LangGraph raises at runtime (`none`). -/
def graphDispatch (category : String) : Option Solver :=
  if category = "math" then some .mathSolver
  else if category = "rag" then some .ragSolver
  else if category = "reading" then some .readingSolver
  else if category = "toxic" then some .toxicChecker
  else none

/-! ### Toxic strategy (`src/agent/modules/toxic/solver.py`) -/

/-- `TOXIC_KEYWORDS` -/
def TOXIC_KEYWORDS : List String :=
  ["tôi không thể trả lời",
   "tôi không biết",
   "tôi không thể cung cấp",
   "không thể chia sẻ",
   "không thể hỗ trợ",
   "không được phép",
   "từ chối trả lời",
   "không thể đưa ra",
   "không cung cấp"]

/-- `re.match(r'^([A-J])\.\s*', choice)`: leading enumeration letter of a
choice.  `\s*` always matches, so only the letter and the dot constrain. -/
def choiceLetter (choice : String) : Option Char :=
  match choice.data with
  | c :: d :: _ => if isLetterAJ c ∧ d = '.' then some c else none
  | _ => none

/-- Does the choice text contain any refusal keyword (case-insensitive)? -/
def choiceHasRefusal (choice : String) : Bool :=
  TOXIC_KEYWORDS.any fun kw => pyContains (pyLower choice) kw

/-- First choice whose lowered text contains a refusal keyword and whose
leading enumeration letter extracts. -/
def findRefusalChoice : List String → Option (Char × String)
  | [] => none
  | choice :: rest =>
    if choiceHasRefusal choice then
      match choiceLetter choice with
      | some c => some (c, choice)
      | none => findRefusalChoice rest
    else findRefusalChoice rest

/-- Fallback scan: the first choice matching the enumeration pattern. -/
def findEnumeratedChoice : List String → Option Char
  | [] => none
  | choice :: rest =>
    match choiceLetter choice with
    | some c => some c
    | none => findEnumeratedChoice rest

/-- `toxic_checker_node`. -/
def toxic_checker_node (st : AgentState) : AgentState :=
  match findRefusalChoice st.choices with
  | some (c, choice) =>
    { st with answer := String.mk [c],
              reasoning :=
                "Toxic question detected. Answer is the refusal: " ++
                  pyTake 50 choice ++ "..." }
  | none =>
    let answer :=
      match findEnumeratedChoice st.choices with
      | some c => String.mk [c]
      | none => "A"
    { st with answer := answer,
              reasoning := "Toxic category but no clear refusal found." }

/-! ### Answer-letter extraction rules -/

/-- Math / reading rule, `re.match(r'([A-Z])', response)`: the response's
first character when it is an uppercase letter (no strip, no upper-casing).
The math strategy defaults to "B" when it fails. -/
def mathExtractLetter (response : String) : String :=
  match response.data with
  | c :: _ => if isUpperAZ c then String.mk [c] else "B"
  | [] => "B"

/-- Scanner for `re.search(r'\b([A-Z])\b', s)`: the first uppercase letter
with a word boundary on both sides; `prevIsWord` says whether the previous
character was a word character. -/
def findIsolatedLetter (prevIsWord : Bool) : List Char → Option Char
  | [] => none
  | c :: rest =>
    let rightOk : Bool := match rest with | [] => true | d :: _ => !isWordChar d
    if isUpperAZ c && !prevIsWord && rightOk then some c
    else findIsolatedLetter (isWordChar c) rest

/-- RAG rule, `re.search(r'\b([A-Z])\b', response.strip().upper())`,
defaulting to "A". -/
def ragExtractLetter (response : String) : String :=
  match findIsolatedLetter false (pyUpper (pyStrip response)).data with
  | some c => String.mk [c]
  | none => "A"

/-! ### Math strategy (`src/agent/modules/math/solver.py`) -/

/-- What one `exec` of a generated snippet did: it either ran to completion
with some captured standard output, or raised, in which case the sandbox
returns `traceback.format_exc()` instead of crashing. -/
inductive ExecOutcome where
  | completed (stdoutText : String)
  | raised (tracebackText : String)
deriving DecidableEq, Repr

/-- `SafePythonExecutor.run`: the stripped captured output on completion,
the full traceback text on an exception. -/
def sandboxRun : ExecOutcome → String
  | .completed s => pyStrip s
  | .raised tb => tb

/-- `execution_result.strip() if execution_result else "No output"`. -/
def normalizeResult (r : String) : String :=
  if r = "" then "No output" else pyStrip r

/-- `error_indicators`: the fixed list of runtime-error-name substrings. -/
def error_indicators : List String :=
  ["Error", "Exception", "Traceback",
   "NameError", "ValueError", "TypeError", "SyntaxError", "IndentationError",
   "AttributeError", "KeyError", "IndexError", "ZeroDivisionError",
   "ImportError", "ModuleNotFoundError", "OverflowError", "RecursionError",
   "AssertionError", "SystemError", "UnboundLocalError", "NotImplementedError",
   "TimeoutError", "FloatingPointError", "ReferenceError", "EOFError",
   "StopIteration",
   "ArithmeticError", "LookupError", "RuntimeError", "MemoryError",
   "BufferError",
   "TabError", "UnicodeError", "UnicodeEncodeError", "UnicodeDecodeError",
   "OSError", "FileNotFoundError", "PermissionError", "ConnectionError",
   "BlockingIOError"]

/-- `has_error`: case-insensitive scan of the execution result against
`error_indicators`. -/
def hasErrorIndicator (result : String) : Bool :=
  error_indicators.any fun ind => pyContains (pyLower result) (pyLower ind)

/-- Is the attempt whose sandbox outcome is `o` judged a failure by the
self-correction loop?  (The loop raises `RuntimeError` exactly when
`has_error` fires on the normalised result.) -/
def attemptJudgedFailure (o : ExecOutcome) : Bool :=
  hasErrorIndicator (normalizeResult (sandboxRun o))

/-- Find `needle` in `hay` and split around it (first occurrence). -/
def splitAtSeq (needle : List Char) : List Char → Option (List Char)
  | [] => if needle.isEmpty then some [] else none
  | c :: rest =>
    if startsWithSeq needle (c :: rest) then some ((c :: rest).drop needle.length)
    else splitAtSeq needle rest

/-- Drop a case-insensitive `python` tag (the `(?:python)?` group). -/
def dropPythonTag (l : List Char) : List Char :=
  if startsWithSeq "python".data (l.map pyToLower) then l.drop 6 else l

/-- Take until the closing fence (the lazy group `([\s\S]*?)` followed by
three backticks); `none` when no closing fence exists. -/
def takeUntilFence (l : List Char) : Option (List Char) :=
  match splitAtSeq "```".data l with
  | some _ =>
    some (l.take (l.length - ((splitAtSeq "```".data l).getD []).length - 3))
  | none => none

/-- `extract_code_block`: first fenced code block (optionally tagged
`python`, case-insensitively), else the whole response stripped. -/
def extract_code_block (text : String) : String :=
  match splitAtSeq "```".data text.data with
  | some afterOpen =>
    match takeUntilFence ((dropPythonTag afterOpen).dropWhile isPySpace) with
    | some inner => ⟨stripChars inner⟩
    | none => pyStrip text
  | none => pyStrip text

/-- `max_retries` of the self-correction loop. -/
def MAX_RETRIES : Nat := 2

/-- Result of the self-correction loop. -/
structure MathRunResult where
  execution_result : String
  executions : Nat
  finalCode : String
deriving DecidableEq, Repr

/-- The message of the `RuntimeError` raised on a failed attempt:
`f"{type(e).__name__}: {str(e)}"` with
`RuntimeError(f"Execution produced error: {execution_result}")`. -/
def attemptErrorMsg (result : String) : String :=
  "RuntimeError: Execution produced error: " ++ result

/-- The repair step on a failed attempt: replace the working code with the
extracted fixed code when extraction yields something, keep the prior code
otherwise; `none` models the repair call itself raising, which the inner
`try` swallows. -/
def repairCode (fixResp : Nat → Option String) (attemptIdx : Nat)
    (code : String) : String :=
  match fixResp attemptIdx with
  | some r =>
    let fixed_code := extract_code_block r
    if fixed_code ≠ "" then fixed_code else code
  | none => code

/-- The self-correction loop of `math_solver_node`.  `runCode` is the
sandbox (deterministic in the code text), `fixResp` the repair responses of
the external generation capability per attempt index.  Recursion is on the
retries remaining. -/
def selfCorrectLoop (runCode : String → ExecOutcome)
    (fixResp : Nat → Option String) (code : String) (attemptIdx : Nat) :
    Nat → MathRunResult
  | 0 =>
    let res := normalizeResult (sandboxRun (runCode code))
    if hasErrorIndicator res then
      { execution_result :=
          "Error after " ++ toString (MAX_RETRIES + 1) ++ " attempts: " ++
            attemptErrorMsg res,
        executions := attemptIdx + 1,
        finalCode := code }
    else
      { execution_result := res, executions := attemptIdx + 1,
        finalCode := code }
  | retriesLeft + 1 =>
    let res := normalizeResult (sandboxRun (runCode code))
    if hasErrorIndicator res then
      selfCorrectLoop runCode fixResp (repairCode fixResp attemptIdx code)
        (attemptIdx + 1) retriesLeft
    else
      { execution_result := res, executions := attemptIdx + 1,
        finalCode := code }

/-- `math_solver_node`, parameterised by the external generation responses
(`codeResponse` for the initial snippet, `fixResp` for repairs,
`answerResponse` for the final letter selection) and the sandbox. -/
def math_solver_node (st : AgentState) (codeResponse : String)
    (runCode : String → ExecOutcome) (fixResp : Nat → Option String)
    (answerResponse : String) : AgentState :=
  let code0 := extract_code_block codeResponse
  let code := if code0 = "" then codeResponse else code0
  let r := selfCorrectLoop runCode fixResp code 0 MAX_RETRIES
  { st with
    answer := mathExtractLetter answerResponse,
    reasoning :=
      "Code executed. Result: " ++
        (if r.execution_result = "" then "None"
         else pyTake 100 r.execution_result) }

/-- The loop result `math_solver_node` produces for given inputs (exposed
so theorems can speak about execution counts). -/
def mathLoopResult (codeResponse : String) (runCode : String → ExecOutcome)
    (fixResp : Nat → Option String) : MathRunResult :=
  let code0 := extract_code_block codeResponse
  let code := if code0 = "" then codeResponse else code0
  selfCorrectLoop runCode fixResp code 0 MAX_RETRIES

/-! ### RAG solver node (`rag_solver_node`) -/

/-- Outcome of one call to the external generation capability: a response
text, or an exception — `rateLimited` is the distinguished
`RateLimitException` (HTTP 429/401), `failed` any other exception.  Both
carry `str(e)`. -/
inductive CallOutcome where
  | ok (text : String)
  | rateLimited (msg : String)
  | failed (msg : String)
deriving DecidableEq, Repr

/-- `rag_solver_node`, parameterised by the retrieval results and the
generation outcome.  The single `except Exception` branch treats a
`RateLimitException` exactly like any other exception. -/
def rag_solver_node (st : AgentState) (searchResults : List (RPoint × String))
    (gen : CallOutcome) : AgentState :=
  let context := advanced_rag_search searchResults
  match gen with
  | .ok response =>
    let answer := ragExtractLetter response
    { st with answer := answer,
              reasoning := "RAG: " ++ toString context.length ++ " chars context",
              context := if context = "" then "" else pyTake 500 context }
  | .rateLimited msg =>
    { st with answer := "A", reasoning := "Error: " ++ pyTake 100 msg }
  | .failed msg =>
    { st with answer := "A", reasoning := "Error: " ++ pyTake 100 msg }

/-! ### Execution driver (`predict.py`, inner loop of `main`) -/

/-- What `app.invoke(initial_state)` did for one item, as seen by the
driver: a final state, a propagated `RateLimitException`, or any other
exception. -/
inductive InvokeOutcome where
  | finished (st : AgentState)
  | rateLimitRaised (msg : String)
  | otherError (msg : String)
deriving DecidableEq, Repr

/-- A checkpoint record as appended to the log (the wall-clock
`time_taken` field is omitted from the model). -/
structure CkptRecord where
  qid : String
  answer : String
  category : String
  reasoning : String
deriving DecidableEq, Repr

/-- Effect of one driver-loop iteration on one item. -/
structure DriverStep where
  appended : Option CkptRecord
  advanced : Bool
  halted : Bool
  slept : Bool
deriving DecidableEq, Repr

/-- One iteration of the `while idx < len(remaining_data)` loop in `main`,
given the invocation outcome for the current item. -/
def driverStep (auto : Bool) (qid : String) (o : InvokeOutcome) : DriverStep :=
  match o with
  | .finished st =>
    { appended := some
        { qid := qid, answer := st.answer, category := st.category,
          reasoning := pyTake 200 st.reasoning },
      advanced := true, halted := false, slept := false }
  | .rateLimitRaised _ =>
    if auto then
      { appended := none, advanced := false, halted := false, slept := true }
    else
      { appended := none, advanced := false, halted := true, slept := false }
  | .otherError msg =>
    { appended := some
        { qid := qid, answer := "C", category := "error",
          reasoning := pyTake 200 msg },
      advanced := true, halted := false, slept := false }

/-- The graph never re-raises from inside `rag_solver_node`: whatever the
generation call did (including a `RateLimitException`), the node catches it
and the invocation finishes with a final state. -/
def ragInvoke (st : AgentState) (searchResults : List (RPoint × String))
    (gen : CallOutcome) : InvokeOutcome :=
  .finished (rag_solver_node st searchResults gen)

/-! ### Test fixtures and auxiliary predicates -/

/-- Is `s` exactly one uppercase letter? -/
def isSingleUpperLetter (s : String) : Bool :=
  match s.data with
  | [c] => isUpperAZ c
  | _ => false

/-- A retrieval candidate with a bare payload, for the RRF fixture. -/
def rrfFixtureDoc (n : Nat) : RPoint := ⟨n, ⟨"", none, none, none, none⟩⟩

/-- The 3-document / 2-query RRF fixture of the spec: document 1 at rank 0
of query A and rank 2 of query B, document 3 at rank 0 of query B only,
document 4 at rank 1 of query B only. -/
def rrfFixture : List (RPoint × String) :=
  [(rrfFixtureDoc 1, "A"), (rrfFixtureDoc 3, "B"), (rrfFixtureDoc 4, "B"),
   (rrfFixtureDoc 1, "B")]

/-! ## Auxiliary lemmas -/

theorem fusedScore_bumpEntry (acc : List DocEntry) (p : RPoint) (s : ℚ)
    (d : Nat) :
    fusedScore (bumpEntry acc p s) d =
      fusedScore acc d + (if p.id = d then s else 0) := by
  induction acc with
  | nil =>
    simp only [bumpEntry, fusedScore]
    split <;> simp
  | cons e rest ih =>
    simp only [bumpEntry]
    by_cases h : e.docId = p.id
    · simp only [if_pos h, fusedScore]
      by_cases hd : e.docId = d
      · rw [if_pos hd, if_pos hd, if_pos (h ▸ hd)]
      · rw [if_neg hd, if_neg hd, if_neg (fun hpd => hd (h.trans hpd)), add_zero]
    · simp only [if_neg h, fusedScore]
      by_cases hd : e.docId = d
      · rw [if_pos hd, if_pos hd, if_neg (fun hpd => h (hd.trans hpd.symm)),
           add_zero]
      · rw [if_neg hd, if_neg hd, ih]

theorem fusedScore_foldl (l : List (RPoint × ℚ)) (d : Nat) :
    ∀ acc : List DocEntry,
      fusedScore (l.foldl (fun a c => bumpEntry a c.1 c.2) acc) d =
        fusedScore acc d + ((l.map fun c => if c.1.id = d then c.2 else 0).sum) := by
  induction l with
  | nil => intro acc; simp
  | cons c t ih =>
    intro acc
    simp only [List.foldl_cons, List.map_cons, List.sum_cons]
    rw [ih, fusedScore_bumpEntry, add_assoc]

theorem selfCorrectLoop_last_fail (runCode : String → ExecOutcome)
    (fixResp : Nat → Option String) (code : String) (attemptIdx : Nat)
    (h : hasErrorIndicator (normalizeResult (sandboxRun (runCode code))) = true) :
    selfCorrectLoop runCode fixResp code attemptIdx 0 =
      { execution_result :=
          "Error after " ++ toString (MAX_RETRIES + 1) ++ " attempts: " ++
            attemptErrorMsg (normalizeResult (sandboxRun (runCode code))),
        executions := attemptIdx + 1,
        finalCode := code } := by
  simp [selfCorrectLoop, h]

theorem selfCorrectLoop_step_fail (runCode : String → ExecOutcome)
    (fixResp : Nat → Option String) (code : String) (attemptIdx k : Nat)
    (h : hasErrorIndicator (normalizeResult (sandboxRun (runCode code))) = true) :
    selfCorrectLoop runCode fixResp code attemptIdx (k + 1) =
      selfCorrectLoop runCode fixResp (repairCode fixResp attemptIdx code)
        (attemptIdx + 1) k := by
  simp [selfCorrectLoop, h]

theorem mathLoop_allFail (runCode : String → ExecOutcome)
    (fixResp : Nat → Option String) (codeResponse : String)
    (hfail : ∀ code,
      hasErrorIndicator (normalizeResult (sandboxRun (runCode code))) = true) :
    (mathLoopResult codeResponse runCode fixResp).executions = 3 ∧
    (mathLoopResult codeResponse runCode fixResp).execution_result =
      "Error after 3 attempts: RuntimeError: Execution produced error: " ++
        normalizeResult (sandboxRun (runCode
          (mathLoopResult codeResponse runCode fixResp).finalCode)) := by
  unfold mathLoopResult MAX_RETRIES
  rw [selfCorrectLoop_step_fail _ _ _ _ _ (hfail _),
      selfCorrectLoop_step_fail _ _ _ _ _ (hfail _),
      selfCorrectLoop_last_fail _ _ _ _ (hfail _)]
  refine ⟨rfl, ?_⟩
  unfold attemptErrorMsg
  rw [show ("Error after " ++ toString (MAX_RETRIES + 1) ++ " attempts: ") =
        "Error after 3 attempts: " from by decide]
  apply String.ext
  simp [String.data_append]

theorem upperAZ_not_pySpace (c : Char) (h : isUpperAZ c = true) :
    isPySpace c = false := by
  simp only [isUpperAZ, Bool.and_eq_true, decide_eq_true_eq] at h
  simp only [isPySpace, Bool.or_eq_false_iff]
  refine ⟨⟨⟨⟨⟨?_, ?_⟩, ?_⟩, ?_⟩, ?_⟩, ?_⟩ <;>
    · apply decide_eq_false
      intro hc
      subst hc
      revert h
      decide

theorem upperAZ_pyToUpper (c : Char) (h : isUpperAZ c = true) :
    pyToUpper c = c := by
  simp only [isUpperAZ, Bool.and_eq_true, decide_eq_true_eq] at h
  unfold pyToUpper
  rw [if_neg]
  simp only [isLowerAZ, Bool.and_eq_true, decide_eq_true_eq]
  omega

theorem nonword_pyToUpper (d : Char) (h : isWordChar d = false) :
    pyToUpper d = d := by
  unfold isWordChar at h
  unfold pyToUpper
  rw [if_neg]
  intro hlow
  rw [hlow] at h
  simp at h

theorem dropTrailingWs_cons_shape (d : Char) (t : List Char) :
    dropTrailingWs (d :: t) = [] ∨
      ∃ t2, dropTrailingWs (d :: t) = d :: t2 := by
  simp only [dropTrailingWs]
  split
  · exact Or.inl rfl
  · exact Or.inr ⟨_, rfl⟩

theorem findIsolatedLetter_upper :
    ∀ (b : Bool) (l : List Char) (c : Char),
      findIsolatedLetter b l = some c → isUpperAZ c = true := by
  intro b l
  induction l generalizing b with
  | nil => intro c hc; exact absurd hc (by simp [findIsolatedLetter])
  | cons a t ih =>
    intro c hc
    simp only [findIsolatedLetter] at hc
    split at hc
    · rename_i hcond
      cases hc
      simp only [Bool.and_eq_true] at hcond
      exact hcond.1.1
    · exact ih _ c hc

theorem ragExtract_single (response : String) :
    isSingleUpperLetter (ragExtractLetter response) = true := by
  unfold ragExtractLetter
  cases hf : findIsolatedLetter false (pyUpper (pyStrip response)).data with
  | none => decide
  | some c =>
    simp only [isSingleUpperLetter]
    exact findIsolatedLetter_upper _ _ _ hf

/-! ## Claim theorems -/

/-- C1 (code_bug evaluation): on the spec's own refusal-short-circuit
fixture — choices `["A. 42", "B. I cannot answer this question"]` and
classifier response `{"type":"TOXIC","toxic_detected":"B"}` — the router
does set answer "B", but the graph still dispatches category `toxic` to the
refusal-scan strategy, which overwrites the answer with "A" (its
enumeration-pattern fallback, since no Vietnamese refusal keyword occurs),
so the persisted answer is "A", not "B".  This contradicts both the claim
and the router's own docstring ("sets answer directly without going to
toxic module"). -/
theorem claim_C1_toxic_shortCircuit :
    (let st1 := router_node
        (initialState "q1" "Question?"
          ["A. 42", "B. I cannot answer this question"])
        (.ok [("type", "TOXIC"), ("toxic_detected", "B")]);
     st1.answer = "B" ∧
     st1.category = "toxic" ∧
     graphDispatch st1.category = some Solver.toxicChecker ∧
     (toxic_checker_node st1).answer = "A" ∧
     (toxic_checker_node st1).answer ≠ "B" ∧
     (driverStep false "q1" (.finished (toxic_checker_node st1))).appended =
       some ⟨"q1", "A", "toxic", "Toxic category but no clear refusal found."⟩) := by
  decide

/-- C2 (code_bug evaluation): a `RateLimitException` raised by the RAG
generation call is swallowed by `rag_solver_node`'s blanket
`except Exception` — the invocation finishes with answer "A", the driver
appends a checkpoint record and advances past the item — whereas a
`RateLimitException` that does reach the driver is handled as the claim
says (no record; auto: sleep and retry, manual: halt). -/
theorem claim_C2_rateLimit_swallowed :
    (let st := { initialState "q7" "Q" ["A. x", "B. y"] with category := "rag" };
     let rl := CallOutcome.rateLimited
       "[generate_rag_answer] Rate Limit/Quota exceeded: HTTP 429";
     let final := rag_solver_node st [] rl;
     final.answer = "A" ∧
     ragInvoke st [] rl = .finished final ∧
     (driverStep true "q7" (.finished final)).appended =
       some ⟨"q7", "A", "rag",
         "Error: [generate_rag_answer] Rate Limit/Quota exceeded: HTTP 429"⟩ ∧
     (driverStep true "q7" (.finished final)).advanced = true ∧
     (driverStep true "q7" (.finished final)).slept = false ∧
     (driverStep true "q7" (.rateLimitRaised "x")).appended = none ∧
     (driverStep true "q7" (.rateLimitRaised "x")).advanced = false ∧
     (driverStep true "q7" (.rateLimitRaised "x")).slept = true ∧
     (driverStep false "q7" (.rateLimitRaised "x")).appended = none ∧
     (driverStep false "q7" (.rateLimitRaised "x")).halted = true) := by
  decide

/-- C3 (counterexample): two parseable records with the same qid `q1`
produce two rows in the consolidated table — the qid column is not
duplicate-free, so the table is not "exactly one row per qid" and the
earlier record's answer is not replaced by the later one. -/
theorem claim_C3_counterexample :
    consolidate_log_to_csv
        [LogLine.ok ⟨some "q1", some "B"⟩, LogLine.ok ⟨some "q1", some "C"⟩] =
      [⟨some "q1", "B"⟩, ⟨some "q1", "C"⟩] ∧
    ¬ (List.map SubmissionRow.qid
        (consolidate_log_to_csv
          [LogLine.ok ⟨some "q1", some "B"⟩,
           LogLine.ok ⟨some "q1", some "C"⟩])).Nodup := by
  constructor
  · decide
  · decide

/-- C3 (amended): consolidation produces one row per parseable checkpoint
record — duplicated qids each keep their own row, with no last-write-wins
collapse — and the rows are sorted by qid. -/
theorem claim_C3_amended :
    (∀ log : List LogLine, List.Sorted rowLe (consolidate_log_to_csv log)) ∧
    (∀ log : List LogLine, (consolidate_log_to_csv log).Perm (parsedRows log)) := by
  constructor
  · intro log; exact List.sorted_insertionSort rowLe _
  · intro log; exact List.perm_insertionSort rowLe _

/-- C4: every document's fused score is the sum of its per-query
contributions `1 / (60 + rank + 1)`, the fused list is ordered by total
score descending, and on the spec's 3-document/2-query fixture document 1
(rank 0 of query A, rank 2 of query B) scores `1/61 + 1/63` and outranks
document 3 (rank 0 of query B only, score `1/61`). -/
theorem claim_C4_rrf :
    (∀ (results : List (RPoint × String)) (d : Nat),
       fusedScore (doc_scores results RRF_K) d =
         ((rrfContribs results RRF_K).map fun c =>
           if c.1.id = d then c.2 else 0).sum) ∧
    (∀ results : List (RPoint × String),
       List.Sorted scoreGe (ranked_docs results RRF_K)) ∧
    reciprocal_rank_fusion rrfFixture RRF_K =
      [rrfFixtureDoc 1, rrfFixtureDoc 3, rrfFixtureDoc 4] ∧
    fusedScore (doc_scores rrfFixture RRF_K) 1 = 1 / 61 + 1 / 63 ∧
    fusedScore (doc_scores rrfFixture RRF_K) 3 = 1 / 61 ∧
    ((1 : ℚ) / 61 + 1 / 63 > 1 / 61) := by
  refine ⟨?_, ?_, ?_, ?_, ?_, by norm_num⟩
  · intro results d
    unfold doc_scores
    rw [fusedScore_foldl]
    simp [fusedScore]
  · intro results
    exact List.sorted_insertionSort scoreGe _
  · norm_num [reciprocal_rank_fusion, ranked_docs, doc_scores, rrfContribs,
      query_rankings, rrfFixture, addRanking, bumpEntry, RRF_K, List.foldl,
      List.flatMap, List.enum, rrfFixtureDoc, List.insertionSort,
      List.orderedInsert, scoreGe]
  · norm_num [doc_scores, rrfContribs, query_rankings, rrfFixture, addRanking,
      bumpEntry, RRF_K, List.foldl, List.flatMap, List.enum, rrfFixtureDoc,
      fusedScore]
  · norm_num [doc_scores, rrfContribs, query_rankings, rrfFixture, addRanking,
      bumpEntry, RRF_K, List.foldl, List.flatMap, List.enum, rrfFixtureDoc,
      fusedScore]

/-- C5: a snippet whose every execution is judged a failure is executed
exactly 3 times; afterwards the last error becomes the final execution
result, and (for errors short enough to survive the 100-character cut) the
full last error text appears verbatim in the solver's reasoning, which the
200-character record truncation also preserves. -/
theorem claim_C5_selfCorrection (runCode : String → ExecOutcome)
    (fixResp : Nat → Option String) (codeResponse : String) (st : AgentState)
    (answerResponse : String)
    (hfail : ∀ code, attemptJudgedFailure (runCode code) = true) :
    (mathLoopResult codeResponse runCode fixResp).executions = 3 ∧
    (mathLoopResult codeResponse runCode fixResp).execution_result =
      "Error after 3 attempts: RuntimeError: Execution produced error: " ++
        normalizeResult (sandboxRun (runCode
          (mathLoopResult codeResponse runCode fixResp).finalCode)) ∧
    ((normalizeResult (sandboxRun (runCode
        (mathLoopResult codeResponse runCode fixResp).finalCode))).length ≤ 36 →
      (math_solver_node st codeResponse runCode fixResp answerResponse).reasoning =
        "Code executed. Result: Error after 3 attempts: RuntimeError: Execution produced error: " ++
          normalizeResult (sandboxRun (runCode
            (mathLoopResult codeResponse runCode fixResp).finalCode)) ∧
      pyTake 200
          (math_solver_node st codeResponse runCode fixResp answerResponse).reasoning =
        (math_solver_node st codeResponse runCode fixResp answerResponse).reasoning) := by
  have hfail2 : ∀ code,
      hasErrorIndicator (normalizeResult (sandboxRun (runCode code))) = true :=
    hfail
  have hcore := mathLoop_allFail runCode fixResp codeResponse hfail2
  refine ⟨hcore.1, hcore.2, ?_⟩
  intro hlen
  set res := normalizeResult (sandboxRun (runCode
    (mathLoopResult codeResponse runCode fixResp).finalCode)) with hres_def
  have hnode : (math_solver_node st codeResponse runCode fixResp
      answerResponse).reasoning =
      "Code executed. Result: " ++
        (if (mathLoopResult codeResponse runCode fixResp).execution_result = ""
         then "None"
         else pyTake 100
           (mathLoopResult codeResponse runCode fixResp).execution_result) := by
    rfl
  have hne : ("Error after 3 attempts: RuntimeError: Execution produced error: "
      ++ res) ≠ "" := by
    intro h
    have := congrArg String.data h
    simp [String.data_append] at this
  have h64 : ("Error after 3 attempts: RuntimeError: Execution produced error: "
      : String).data.length = 64 := by decide
  have htake : pyTake 100
      ("Error after 3 attempts: RuntimeError: Execution produced error: " ++ res)
      = "Error after 3 attempts: RuntimeError: Execution produced error: " ++
          res := by
    apply String.ext
    simp only [pyTake, String.data_append]
    rw [List.take_append_eq_append_take]
    rw [List.take_of_length_le (by rw [h64]; decide)]
    rw [List.take_of_length_le (by rw [h64]; exact hlen)]
  have hreason : (math_solver_node st codeResponse runCode fixResp
      answerResponse).reasoning =
      "Code executed. Result: Error after 3 attempts: RuntimeError: Execution produced error: "
        ++ res := by
    rw [hnode, hcore.2, if_neg hne, htake]
    apply String.ext
    simp [String.data_append]
  refine ⟨hreason, ?_⟩
  rw [hreason]
  apply String.ext
  simp only [pyTake, String.data_append]
  rw [List.take_append_eq_append_take]
  have h87 : ("Code executed. Result: Error after 3 attempts: RuntimeError: Execution produced error: "
      : String).data.length = 87 := by decide
  rw [List.take_of_length_le (by rw [h87]; decide)]
  rw [List.take_of_length_le (by rw [h87]; exact le_trans hlen (by norm_num))]

/-- C5 witness: a sandbox that always prints `ValueError: boom` is executed
3 times, the final execution result and the recorded reasoning carry that
last error. -/
theorem claim_C5_witness :
    (∀ code : String, attemptJudgedFailure
        ((fun _ : String => ExecOutcome.completed "ValueError: boom") code) = true) ∧
    (mathLoopResult "print(1)" (fun _ => ExecOutcome.completed "ValueError: boom")
        (fun _ => none)).executions = 3 ∧
    (mathLoopResult "print(1)" (fun _ => ExecOutcome.completed "ValueError: boom")
        (fun _ => none)).execution_result =
      "Error after 3 attempts: RuntimeError: Execution produced error: ValueError: boom" ∧
    (math_solver_node (initialState "q5" "Q" ["A. 1"]) "print(1)"
        (fun _ => ExecOutcome.completed "ValueError: boom") (fun _ => none)
        "B").reasoning =
      "Code executed. Result: Error after 3 attempts: RuntimeError: Execution produced error: ValueError: boom" := by
  have hok : attemptJudgedFailure (ExecOutcome.completed "ValueError: boom") = true := by
    decide
  have h := claim_C5_selfCorrection
    (fun _ => ExecOutcome.completed "ValueError: boom") (fun _ => none)
    "print(1)" (initialState "q5" "Q" ["A. 1"]) "B" (fun _ => hok)
  exact ⟨fun _ => hok, h.1, h.2.1.trans (by decide),
    ((h.2.2 (by decide)).1).trans (by decide)⟩

/-- C6: an attempt is judged a failure exactly when the (normalised)
captured output contains one of the fixed error-indicator substrings,
case-insensitively — even when the execution raised no exception — and an
attempt that raised (whose sandbox text contains "Traceback") is always a
failure. -/
theorem claim_C6_failureDetection :
    (∀ s ind : String, ind ∈ error_indicators →
      pyContains (pyLower (normalizeResult (pyStrip s))) (pyLower ind) = true →
      attemptJudgedFailure (.completed s) = true) ∧
    (∀ s : String, attemptJudgedFailure (.completed s) = false ↔
      ∀ ind ∈ error_indicators,
        pyContains (pyLower (normalizeResult (pyStrip s))) (pyLower ind) = false) ∧
    (∀ tb : String,
      pyContains (pyLower (normalizeResult tb)) "traceback" = true →
      attemptJudgedFailure (.raised tb) = true) := by
  refine ⟨?_, ?_, ?_⟩
  · intro s ind hmem hsub
    unfold attemptJudgedFailure hasErrorIndicator sandboxRun
    exact List.any_eq_true.mpr ⟨ind, hmem, hsub⟩
  · intro s
    unfold attemptJudgedFailure hasErrorIndicator sandboxRun
    simp [List.any_eq_true]
  · intro tb h
    unfold attemptJudgedFailure hasErrorIndicator sandboxRun
    exact List.any_eq_true.mpr ⟨"Traceback", by decide, h⟩

/-- C6 witness: an execution that raises nothing but prints
`NameError: name x is not defined` is judged a failure, and so is a raised
traceback. -/
theorem claim_C6_witness :
    (("NameError" : String) ∈ error_indicators ∧
     pyContains (pyLower (normalizeResult
        (pyStrip "NameError: name x is not defined"))) (pyLower "NameError") = true ∧
     attemptJudgedFailure (.completed "NameError: name x is not defined") = true) ∧
    (pyContains (pyLower (normalizeResult "Traceback (most recent call last):"))
        "traceback" = true ∧
     attemptJudgedFailure (.raised "Traceback (most recent call last):") = true) := by
  refine ⟨⟨by decide, by decide,
    claim_C6_failureDetection.1 "NameError: name x is not defined" "NameError"
      (by decide) (by decide)⟩,
    ⟨by decide, claim_C6_failureDetection.2.2
      "Traceback (most recent call last):" (by decide)⟩⟩

/-- C7 (counterexample): a parseable classifier response with type "OTHER"
yields category "other", which has no edge in the graph's conditional map —
the item is not dispatched to the rag strategy (or to any strategy). -/
theorem claim_C7_counterexample :
    (let st1 := router_node (initialState "q2" "Q" ["A. x"])
        (.ok [("type", "OTHER")]);
     st1.category = "other" ∧
     graphDispatch st1.category = none ∧
     graphDispatch st1.category ≠ some Solver.ragSolver) := by
  decide

/-- C7 (amended): each of the four known categories is dispatched to
exactly its own strategy; the rag fallback applies to classifier responses
that fail to parse (keyword scan with default rag) and to parseable
responses that lack a type field — but a parseable out-of-set type value is
not remapped (dispatch then fails, and the driver's generic per-item error
handling takes over). -/
theorem claim_C7_amended :
    (graphDispatch "math" = some Solver.mathSolver ∧
     graphDispatch "rag" = some Solver.ragSolver ∧
     graphDispatch "reading" = some Solver.readingSolver ∧
     graphDispatch "toxic" = some Solver.toxicChecker) ∧
    (∀ (st : AgentState) (raw : String),
      (graphDispatch (router_node st (.fail raw)).category).isSome = true) ∧
    (∀ (st : AgentState) (fields : List (String × String)),
      fields.lookup "type" = none →
      (router_node st (.ok fields)).category = "rag") := by
  refine ⟨⟨rfl, rfl, rfl, rfl⟩, ?_, ?_⟩
  · intro st raw
    simp only [router_node]
    split
    · rfl
    · split
      · rfl
      · split
        · rfl
        · rfl
  · intro st fields h
    simp only [router_node, h]
    unfold applyClassification
    cases htd : fields.lookup "toxic_detected" with
    | none => rfl
    | some td =>
      dsimp only
      split
      · split <;> rfl
      · rfl

/-- C7 witness: a parseable classifier response with no type field lands in
category rag. -/
theorem claim_C7_witness :
    ([] : List (String × String)).lookup "type" = none ∧
    (router_node (initialState "q3" "Q" ["A. x"]) (.ok [])).category = "rag" :=
  ⟨rfl, claim_C7_amended.2.2 (initialState "q3" "Q" ["A. x"]) [] rfl⟩

/-- C8 (counterexample): on the response "Answer: C" the math rule extracts
"A" (the first character, which happens to be an uppercase letter) while
the RAG rule extracts "C" (the first isolated uppercase letter) — both are
genuine extractions, not defaults, and they differ, so the two strategies
do not share one extraction rule. -/
theorem claim_C8_counterexample :
    mathExtractLetter "Answer: C" = "A" ∧
    ragExtractLetter "Answer: C" = "C" ∧
    mathExtractLetter "Answer: C" ≠ ragExtractLetter "Answer: C" ∧
    ("A" : String) ≠ "B" ∧
    ("C" : String) ≠ "A" := by
  decide

/-- C8 (amended): the two extraction rules differ — math takes the
response's first character when uppercase (default "B"); RAG searches the
uppercased, stripped response for the first isolated uppercase letter
(default "A") — but they agree whenever the response begins with an
uppercase letter that is not followed by a word character. -/
theorem claim_C8_amended :
    ∀ (c : Char) (rest : List Char),
      isUpperAZ c = true → isWordChar (rest.headD ' ') = false →
      mathExtractLetter (String.mk (c :: rest)) =
        ragExtractLetter (String.mk (c :: rest)) := by
  intro c rest hupper hword
  have hmath : mathExtractLetter (String.mk (c :: rest)) = String.mk [c] := by
    simp [mathExtractLetter, hupper]
  rw [hmath]
  have hspace := upperAZ_not_pySpace c hupper
  have hstrip : pyStrip (String.mk (c :: rest)) =
      String.mk (c :: dropTrailingWs rest) := by
    unfold pyStrip stripChars
    simp only [List.dropWhile_cons, hspace]
    simp only [Bool.false_eq_true, if_false, dropTrailingWs]
    rw [if_neg]
    simp [hspace]
  unfold ragExtractLetter
  rw [hstrip]
  have huppermap : (pyUpper (String.mk (c :: dropTrailingWs rest))).data =
      c :: (dropTrailingWs rest).map pyToUpper := by
    simp [pyUpper, upperAZ_pyToUpper c hupper]
  rw [huppermap]
  have hfound : findIsolatedLetter false
      (c :: (dropTrailingWs rest).map pyToUpper) = some c := by
    cases rest with
    | nil =>
      simp [findIsolatedLetter, dropTrailingWs, hupper]
    | cons d t =>
      have hw : isWordChar d = false := by simpa using hword
      rcases dropTrailingWs_cons_shape d t with h | ⟨t2, h⟩
      · rw [h]
        simp [findIsolatedLetter, hupper]
      · rw [h]
        simp only [List.map_cons, findIsolatedLetter]
        rw [nonword_pyToUpper d hw]
        simp [hupper, hw]
  rw [hfound]

/-- C8 witness: for a response starting with "B" followed by a period both
extraction rules agree on "B". -/
theorem claim_C8_witness :
    isUpperAZ 'B' = true ∧
    isWordChar ((". correct").data.headD ' ') = false ∧
    mathExtractLetter (String.mk ('B' :: (". correct").data)) =
      ragExtractLetter (String.mk ('B' :: (". correct").data)) :=
  ⟨by decide, by decide,
   claim_C8_amended 'B' (". correct").data (by decide) (by decide)⟩

/-- C9: with zero retrieval candidates (vector store unreachable, embedding
failure, or nothing above threshold) the RAG strategy's context is empty,
the node still finishes with a final state — never propagating a failure —
and the answer is always a single uppercase letter, whatever the generation
call did. -/
theorem claim_C9_emptyRetrieval :
    ∀ (st : AgentState) (gen : CallOutcome),
      advanced_rag_search [] = "" ∧
      ∃ st2 : AgentState, ragInvoke st [] gen = .finished st2 ∧
        isSingleUpperLetter st2.answer = true := by
  intro st gen
  refine ⟨rfl, rag_solver_node st [] gen, rfl, ?_⟩
  cases gen with
  | ok t => exact ragExtract_single t
  | rateLimited m => exact (by decide : isSingleUpperLetter "A" = true)
  | failed m => exact (by decide : isSingleUpperLetter "A" = true)

/-- C10: a parseable checkpoint record with no answer field still
contributes a row with answer "A" to the consolidated table. -/
theorem claim_C10_missingAnswer :
    ∀ (log : List LogLine) (q : String),
      LogLine.ok ⟨some q, none⟩ ∈ log →
      (⟨some q, "A"⟩ : SubmissionRow) ∈ consolidate_log_to_csv log := by
  intro log q h
  unfold consolidate_log_to_csv
  rw [List.mem_insertionSort]
  exact List.mem_filterMap.mpr ⟨LogLine.ok ⟨some q, none⟩, h, rfl⟩

/-- C10 witness: a one-line log whose record has qid q9 and no answer field
yields the row (q9, "A"). -/
theorem claim_C10_witness :
    LogLine.ok ⟨some "q9", none⟩ ∈ [LogLine.ok ⟨some "q9", none⟩] ∧
    (⟨some "q9", "A"⟩ : SubmissionRow) ∈
      consolidate_log_to_csv [LogLine.ok ⟨some "q9", none⟩] :=
  ⟨by decide, claim_C10_missingAnswer [LogLine.ok ⟨some "q9", none⟩] "q9" (by decide)⟩

end VnptAgent
